import Mathlib

/-!
Shallow embedding of the in-memory control-plane core of the
Kubernetes-Edge-Computing-Framework central orchestrator
(`src/central-orchestrator/orchestrator.go`, `securityManager.js`, and the
shared type declarations), together with theorems settling the frozen
claims about its specification.

Timestamps are modelled as `Int` milliseconds.  Go/JS in-memory maps are
modelled as functions `String → Option α` (get/set/delete semantics);
node and workload collections iterated by the background loops are
modelled as lists, the list order standing for the enumeration order of a
single iteration.  A Go runtime panic (out-of-bounds slice) is modelled by
an `Option` result being `none`.
-/

namespace EdgeOrch

/-- Node status, from the `NodeStatus` constants in the shared Go
declarations (`online`, `offline`, `degraded`, `maintenance`). -/
inductive NodeStatus where
  | online
  | offline
  | degraded
  | maintenance
deriving Repr, DecidableEq

/-- The fields of an `EdgeNode` (shared Go declarations) that the health
sweep and the scheduler read or write.  Labels are an association list
standing for the Go `map[string]string`. -/
structure EdgeNode where
  id : String
  status : NodeStatus
  lastHeartbeat : Int
  updatedAt : Int
  labels : List (String × String)
  region : String
  zone : String
deriving Repr, DecidableEq

/-- Staleness threshold used by `checkNodeHealth` in `orchestrator.go`:
`time.Since(node.LastHeartbeat) > 2*time.Minute`, in milliseconds. -/
def stalenessThreshold : Int := 2 * 60 * 1000

/-- The per-node body of `checkNodeHealth` (`orchestrator.go` lines
76-84): a node whose heartbeat is older than the threshold and whose
status is not already OFFLINE is set OFFLINE with `updatedAt` refreshed;
every other node is left as is. -/
def sweepNode (now : Int) (n : EdgeNode) : EdgeNode :=
  if now - n.lastHeartbeat > stalenessThreshold then
    if n.status ≠ NodeStatus.offline then
      { n with status := NodeStatus.offline, updatedAt := now }
    else n
  else n

/-- `checkNodeHealth` (`orchestrator.go` lines 72-85): one health-sweep
pass over the node collection. -/
def checkNodeHealth (now : Int) (nodes : List EdgeNode) : List EdgeNode :=
  nodes.map (sweepNode now)

theorem sweepNode_idem (now : Int) (n : EdgeNode) :
    sweepNode now (sweepNode now n) = sweepNode now n := by
  unfold sweepNode
  by_cases h1 : now - n.lastHeartbeat > stalenessThreshold
  · by_cases h2 : n.status ≠ NodeStatus.offline
    · simp [h1, h2]
    · simp [h1, h2]
  · simp [h1]

/-- C4: one invocation of the health sweep sets status to OFFLINE (and
updates `updatedAt`) for exactly the stale, not-already-OFFLINE nodes and
leaves every other node unchanged, and the sweep is idempotent: sweeping
an already-swept collection changes nothing. -/
theorem health_sweep_exact_and_idempotent (now : Int) (nodes : List EdgeNode) :
    (checkNodeHealth now nodes).length = nodes.length ∧
    (∀ i (h : i < nodes.length) (h2 : i < (checkNodeHealth now nodes).length),
      (checkNodeHealth now nodes).get ⟨i, h2⟩ =
        (if now - (nodes.get ⟨i, h⟩).lastHeartbeat > stalenessThreshold ∧
            (nodes.get ⟨i, h⟩).status ≠ NodeStatus.offline then
          { nodes.get ⟨i, h⟩ with status := NodeStatus.offline, updatedAt := now }
        else nodes.get ⟨i, h⟩)) ∧
    checkNodeHealth now (checkNodeHealth now nodes) = checkNodeHealth now nodes := by
  refine ⟨by simp [checkNodeHealth], ?_, ?_⟩
  · intro i h h2
    simp only [checkNodeHealth, List.get_eq_getElem, List.getElem_map]
    unfold sweepNode
    by_cases h1 : now - nodes[i].lastHeartbeat > stalenessThreshold
    · by_cases hs : nodes[i].status ≠ NodeStatus.offline
      · simp [h1, hs]
      · simp [h1, hs]
    · simp [h1]
  · simp only [checkNodeHealth, List.map_map]
    apply List.map_congr_left
    intro n _
    exact sweepNode_idem now n

/-- Witness for `health_sweep_exact_and_idempotent` at a concrete
two-node collection (one stale ONLINE node, one fresh one). -/
theorem health_sweep_exact_and_idempotent_witness :
    (checkNodeHealth 200000
      [⟨"a", NodeStatus.online, 0, 0, [], "default", "default"⟩,
       ⟨"b", NodeStatus.online, 150000, 150000, [], "default", "default"⟩]).get
      ⟨0, by decide⟩ =
      ⟨"a", NodeStatus.offline, 0, 200000, [], "default", "default"⟩ := by
  have h := health_sweep_exact_and_idempotent 200000
      [⟨"a", NodeStatus.online, 0, 0, [], "default", "default"⟩,
       ⟨"b", NodeStatus.online, 150000, 150000, [], "default", "default"⟩]
  have h2 := h.2.1 0 (by decide) (by decide)
  simpa using h2

/-- C5 counterexample: a DEGRADED node whose heartbeat is stale is NOT
left untouched by the sweep — `checkNodeHealth` sets it OFFLINE, because
the code only skips nodes already OFFLINE. -/
theorem sweep_touches_stale_degraded_node :
    checkNodeHealth 200000
        [⟨"d", NodeStatus.degraded, 0, 0, [], "default", "default"⟩] ≠
      [⟨"d", NodeStatus.degraded, 0, 0, [], "default", "default"⟩] := by
  decide

/-- C5 (amended): a DEGRADED or MAINTENANCE node with a fresh heartbeat
is left untouched by the sweep, while a stale one is set OFFLINE (with
`updatedAt` refreshed) like any other non-OFFLINE node; the sweep never
sets a node to DEGRADED or MAINTENANCE. -/
theorem sweep_degraded_maintenance (now : Int) (n : EdgeNode)
    (hs : n.status = NodeStatus.degraded ∨ n.status = NodeStatus.maintenance) :
    (now - n.lastHeartbeat ≤ stalenessThreshold → checkNodeHealth now [n] = [n]) ∧
    (now - n.lastHeartbeat > stalenessThreshold →
      checkNodeHealth now [n] =
        [{ n with status := NodeStatus.offline, updatedAt := now }]) := by
  constructor
  · intro hfresh
    simp [checkNodeHealth, sweepNode, not_lt.mpr hfresh]
  · intro hstale
    have hne : n.status ≠ NodeStatus.offline := by
      rcases hs with h | h <;> simp [h]
    simp [checkNodeHealth, sweepNode, hstale, hne]

/-- Witness for `sweep_degraded_maintenance` on a concrete stale
MAINTENANCE node. -/
theorem sweep_degraded_maintenance_witness :
    checkNodeHealth 200000
        [⟨"m", NodeStatus.maintenance, 0, 0, [], "default", "default"⟩] =
      [⟨"m", NodeStatus.offline, 0, 200000, [], "default", "default"⟩] := by
  have h := sweep_degraded_maintenance 200000
      ⟨"m", NodeStatus.maintenance, 0, 0, [], "default", "default"⟩ (Or.inr rfl)
  exact h.2 (by decide)

/-- Workload status constants from the shared Go declarations. -/
inductive WorkloadStatus where
  | pending
  | running
  | completed
  | failed
  | stopped
deriving Repr, DecidableEq

/-- `PlacementStrategyEdgeFirst` constant ("edge-first"). -/
def PlacementStrategyEdgeFirst : String := "edge-first"

/-- `PlacementStrategyCloudFirst` constant ("cloud-first"). -/
def PlacementStrategyCloudFirst : String := "cloud-first"

/-- `PlacementStrategyLoadBalance` constant ("load-balance"). -/
def PlacementStrategyLoadBalance : String := "load-balance"

/-- `PlacementStrategyResource` constant ("resource-aware"). -/
def PlacementStrategyResource : String := "resource-aware"

/-- `PlacementConstraint` from the shared Go declarations. -/
structure PlacementConstraint where
  key : String
  operator : String
  values : List String
deriving Repr, DecidableEq

/-- `PlacementPolicy` from the shared Go declarations (preferences are
never read by the scheduler and are omitted). -/
structure PlacementPolicy where
  strategy : String
  constraints : List PlacementConstraint
deriving Repr, DecidableEq

/-- `WorkloadDeployment` from the shared Go declarations. -/
structure WorkloadDeployment where
  nodeID : String
  status : WorkloadStatus
  replicas : Int
  deployedAt : Int
  updatedAt : Int
deriving Repr, DecidableEq

/-- `Workload` from the shared Go declarations; `replicas` is the Go
`int32` desired replica count (kept as `Int`, faithful since `int(...)`
in `selectEdgeFirstNodes` is a widening conversion).  The source field
`Namespace` is spelled `nspace` because `namespace` is reserved in
Lean. -/
structure Workload where
  id : String
  name : String
  nspace : String
  type : String
  image : String
  replicas : Int
  environment : List (String × String)
  labels : List (String × String)
  selector : List (String × String)
  placement : PlacementPolicy
  status : WorkloadStatus
  deployments : List WorkloadDeployment
  createdAt : Int
  updatedAt : Int
deriving Repr, DecidableEq

/-- `contains` helper (`orchestrator.go` lines 408-415): membership of a
string in a slice. -/
def contains (slice : List String) (item : String) : Bool :=
  slice.any (fun s => s == item)

/-- `nodeMatchesConstraints` (`orchestrator.go` lines 170-192): the node
must satisfy every constraint; "region"/"zone" keys compare against the
node's region/zone, any other key against `labels[key]`, with an absent
label failing the constraint. -/
def nodeMatchesConstraints (node : EdgeNode)
    (constraints : List PlacementConstraint) : Bool :=
  constraints.all fun c =>
    if c.key == "region" then contains c.values node.region
    else if c.key == "zone" then contains c.values node.zone
    else match node.labels.lookup c.key with
      | some labelValue => contains c.values labelValue
      | none => false

/-- The candidate-filtering loop of `selectNodesForWorkload`
(`orchestrator.go` lines 146-153): ONLINE nodes matching every
constraint, in enumeration order. -/
def selectCandidates (nodes : List EdgeNode) (w : Workload) : List EdgeNode :=
  nodes.filter fun n =>
    n.status == NodeStatus.online && nodeMatchesConstraints n w.placement.constraints

/-- `selectEdgeFirstNodes` (`orchestrator.go` lines 195-211).  The Go
slice expression `candidates[:maxNodes]` panics when `maxNodes` is
negative; that panic is modelled by `none`. -/
def selectEdgeFirstNodes (candidates : List EdgeNode) (w : Workload) :
    Option (List EdgeNode) :=
  if candidates.length = 0 then some []
  else
    let maxNodes : Int := if w.replicas = 0 then 1 else w.replicas
    if (candidates.length : Int) ≤ maxNodes then some candidates
    else if 0 ≤ maxNodes then some (candidates.take maxNodes.toNat)
    else none

/-- `selectLoadBalancedNodes` (`orchestrator.go` lines 214-217): degrades
to edge-first. -/
def selectLoadBalancedNodes (candidates : List EdgeNode) (w : Workload) :
    Option (List EdgeNode) :=
  selectEdgeFirstNodes candidates w

/-- `selectResourceAwareNodes` (`orchestrator.go` lines 220-223):
degrades to edge-first. -/
def selectResourceAwareNodes (candidates : List EdgeNode) (w : Workload) :
    Option (List EdgeNode) :=
  selectEdgeFirstNodes candidates w

/-- `selectNodesForWorkload` (`orchestrator.go` lines 142-167): filter
candidates, then dispatch on the placement strategy (the default branch
is edge-first). -/
def selectNodesForWorkload (nodes : List EdgeNode) (w : Workload) :
    Option (List EdgeNode) :=
  let candidates := selectCandidates nodes w
  if w.placement.strategy == PlacementStrategyEdgeFirst then
    selectEdgeFirstNodes candidates w
  else if w.placement.strategy == PlacementStrategyLoadBalance then
    selectLoadBalancedNodes candidates w
  else if w.placement.strategy == PlacementStrategyResource then
    selectResourceAwareNodes candidates w
  else
    selectEdgeFirstNodes candidates w

/-- The deployment record built for each selected node in
`scheduleWorkload` (`orchestrator.go` lines 124-130). -/
def mkDeployment (now : Int) (n : EdgeNode) : WorkloadDeployment :=
  { nodeID := n.id, status := WorkloadStatus.running, replicas := 1,
    deployedAt := now, updatedAt := now }

/-- `scheduleWorkload` (`orchestrator.go` lines 116-139): empty selection
fails with an error and no mutation; otherwise one RUNNING deployment
record with one replica is appended per selected node and the workload
becomes RUNNING.  `none` models the panic propagated from node
selection. -/
def scheduleWorkload (now : Int) (nodes : List EdgeNode) (w : Workload) :
    Option (Except String Workload) :=
  match selectNodesForWorkload nodes w with
  | none => none
  | some sel =>
    if sel.length = 0 then
      some (Except.error ("no suitable nodes found for workload " ++ w.name))
    else
      some (Except.ok
        { w with
          deployments := w.deployments ++ sel.map (mkDeployment now),
          status := WorkloadStatus.running,
          updatedAt := now })

/-- The per-workload body of `scheduleWorkloads` (`orchestrator.go` lines
105-112): a non-PENDING workload is skipped; a scheduling error is logged
and leaves the workload unchanged; success replaces it; a panic (`none`)
kills the whole pass. -/
def scheduleTickOne (now : Int) (nodes : List EdgeNode) (w : Workload) :
    Option Workload :=
  if w.status = WorkloadStatus.pending then
    match scheduleWorkload now nodes w with
    | none => none
    | some (Except.error _) => some w
    | some (Except.ok w2) => some w2
  else some w

/-- `scheduleWorkloads` (`orchestrator.go` lines 101-113): one scheduling
tick over the workload collection. -/
def scheduleWorkloads (now : Int) (nodes : List EdgeNode)
    (ws : List Workload) : Option (List Workload) :=
  ws.mapM (scheduleTickOne now nodes)

theorem contains_iff (slice : List String) (item : String) :
    contains slice item = true ↔ item ∈ slice := by
  simp [contains]

theorem selectEdgeFirstNodes_pos (candidates : List EdgeNode) (w : Workload)
    (hr : 1 ≤ w.replicas) (hc : candidates ≠ []) :
    selectEdgeFirstNodes candidates w =
      some (candidates.take (min w.replicas.toNat candidates.length)) := by
  have hlen : candidates.length ≠ 0 := by
    simpa [List.length_eq_zero] using hc
  have hrne : w.replicas ≠ 0 := by omega
  unfold selectEdgeFirstNodes
  simp only [hlen, if_false, hrne, if_neg]
  by_cases hle : (candidates.length : Int) ≤ w.replicas
  · have hmin : min w.replicas.toNat candidates.length = candidates.length := by
      omega
    simp [hle, hmin]
  · have h0 : (0 : Int) ≤ w.replicas := by omega
    have hmin : min w.replicas.toNat candidates.length = w.replicas.toNat := by
      omega
    simp [hle, h0, hmin]

/-- C1: for an EDGE_FIRST workload with desired replicas r ≥ 1 and a
non-empty candidate set C, `scheduleWorkload` appends exactly
`min(r, |C|)` deployment records — built from the first `min(r, |C|)`
candidates in enumeration order, each RUNNING with one replica — and sets
the workload's status to RUNNING. -/
theorem edge_first_schedule_appends_min (now : Int) (nodes : List EdgeNode)
    (w : Workload)
    (hstrat : w.placement.strategy = PlacementStrategyEdgeFirst)
    (hr : 1 ≤ w.replicas)
    (hc : selectCandidates nodes w ≠ []) :
    scheduleWorkload now nodes w =
      some (Except.ok
        { w with
          deployments := w.deployments ++
            ((selectCandidates nodes w).take
              (min w.replicas.toNat (selectCandidates nodes w).length)).map
              (mkDeployment now),
          status := WorkloadStatus.running,
          updatedAt := now }) ∧
    ((selectCandidates nodes w).take
        (min w.replicas.toNat (selectCandidates nodes w).length)).length =
      min w.replicas.toNat (selectCandidates nodes w).length := by
  have hsel := selectEdgeFirstNodes_pos (selectCandidates nodes w) w hr hc
  have hlen : (selectCandidates nodes w).length ≠ 0 := by
    simpa [List.length_eq_zero] using hc
  have htange : min w.replicas.toNat (selectCandidates nodes w).length ≠ 0 := by
    omega
  have htake : ((selectCandidates nodes w).take
      (min w.replicas.toNat (selectCandidates nodes w).length)).length =
      min w.replicas.toNat (selectCandidates nodes w).length := by
    simp [List.length_take]
  refine ⟨?_, htake⟩
  unfold scheduleWorkload selectNodesForWorkload
  simp only [hstrat, beq_self_eq_true, if_true, hsel, htake, htange, if_false]

/-- Witness for `edge_first_schedule_appends_min`: desired replicas 2,
five ONLINE unconstrained candidate nodes, exactly two RUNNING deployment
records appended. -/
theorem edge_first_schedule_appends_min_witness :
    scheduleWorkload 7
        [⟨"n1", NodeStatus.online, 0, 0, [], "default", "default"⟩,
         ⟨"n2", NodeStatus.online, 0, 0, [], "default", "default"⟩,
         ⟨"n3", NodeStatus.online, 0, 0, [], "default", "default"⟩,
         ⟨"n4", NodeStatus.online, 0, 0, [], "default", "default"⟩,
         ⟨"n5", NodeStatus.online, 0, 0, [], "default", "default"⟩]
        { id := "w1", name := "w", nspace := "default", type := "deployment",
          image := "img", replicas := 2, environment := [], labels := [],
          selector := [], placement := ⟨PlacementStrategyEdgeFirst, []⟩,
          status := WorkloadStatus.pending, deployments := [],
          createdAt := 0, updatedAt := 0 } =
      some (Except.ok
        { id := "w1", name := "w", nspace := "default", type := "deployment",
          image := "img", replicas := 2, environment := [], labels := [],
          selector := [], placement := ⟨PlacementStrategyEdgeFirst, []⟩,
          status := WorkloadStatus.running,
          deployments :=
            [⟨"n1", WorkloadStatus.running, 1, 7, 7⟩,
             ⟨"n2", WorkloadStatus.running, 1, 7, 7⟩],
          createdAt := 0, updatedAt := 7 }) := by
  have h := edge_first_schedule_appends_min 7
      [⟨"n1", NodeStatus.online, 0, 0, [], "default", "default"⟩,
       ⟨"n2", NodeStatus.online, 0, 0, [], "default", "default"⟩,
       ⟨"n3", NodeStatus.online, 0, 0, [], "default", "default"⟩,
       ⟨"n4", NodeStatus.online, 0, 0, [], "default", "default"⟩,
       ⟨"n5", NodeStatus.online, 0, 0, [], "default", "default"⟩]
      { id := "w1", name := "w", nspace := "default", type := "deployment",
        image := "img", replicas := 2, environment := [], labels := [],
        selector := [], placement := ⟨PlacementStrategyEdgeFirst, []⟩,
        status := WorkloadStatus.pending, deployments := [],
        createdAt := 0, updatedAt := 0 }
      rfl (by decide) (by decide)
  rw [h.1]
  rfl

/-- C2: a PENDING workload with an empty candidate set fails scheduling
with a reportable error, and the scheduling-tick step leaves the workload
entirely unchanged (status still PENDING, deployments untouched). -/
theorem empty_candidates_no_side_effect (now : Int) (nodes : List EdgeNode)
    (w : Workload)
    (hstatus : w.status = WorkloadStatus.pending)
    (hc : selectCandidates nodes w = []) :
    scheduleWorkload now nodes w =
      some (Except.error ("no suitable nodes found for workload " ++ w.name)) ∧
    scheduleTickOne now nodes w = some w := by
  have hsched : scheduleWorkload now nodes w =
      some (Except.error ("no suitable nodes found for workload " ++ w.name)) := by
    unfold scheduleWorkload selectNodesForWorkload
    rw [hc]
    split_ifs <;>
      simp [selectEdgeFirstNodes, selectLoadBalancedNodes, selectResourceAwareNodes]
  refine ⟨hsched, ?_⟩
  unfold scheduleTickOne
  rw [if_pos hstatus, hsched]

/-- Witness for `empty_candidates_no_side_effect`: a PENDING workload and
a single OFFLINE node (empty candidate set) — the tick returns the
workload unchanged. -/
theorem empty_candidates_no_side_effect_witness :
    scheduleTickOne 7
        [⟨"n1", NodeStatus.offline, 0, 0, [], "default", "default"⟩]
        { id := "w1", name := "w", nspace := "default", type := "deployment",
          image := "img", replicas := 2, environment := [], labels := [],
          selector := [], placement := ⟨PlacementStrategyEdgeFirst, []⟩,
          status := WorkloadStatus.pending, deployments := [],
          createdAt := 0, updatedAt := 0 } =
      some
        { id := "w1", name := "w", nspace := "default", type := "deployment",
          image := "img", replicas := 2, environment := [], labels := [],
          selector := [], placement := ⟨PlacementStrategyEdgeFirst, []⟩,
          status := WorkloadStatus.pending, deployments := [],
          createdAt := 0, updatedAt := 0 } := by
  exact (empty_candidates_no_side_effect 7
      [⟨"n1", NodeStatus.offline, 0, 0, [], "default", "default"⟩]
      { id := "w1", name := "w", nspace := "default", type := "deployment",
        image := "img", replicas := 2, environment := [], labels := [],
        selector := [], placement := ⟨PlacementStrategyEdgeFirst, []⟩,
        status := WorkloadStatus.pending, deployments := [],
        createdAt := 0, updatedAt := 0 } rfl (by decide)).2

/-- C3: a node is a placement candidate with respect to a constraint list
exactly when it satisfies each constraint — region/zone keys compare
against the node's region/zone, any other key against the node's label
value (an absent label fails); in particular a region constraint with
values ["eu"] excludes every node whose region is not "eu". -/
theorem constraint_matching_characterization (node : EdgeNode)
    (constraints : List PlacementConstraint) :
    (nodeMatchesConstraints node constraints = true ↔
      ∀ c ∈ constraints,
        (c.key = "region" → node.region ∈ c.values) ∧
        (c.key = "zone" → c.key ≠ "region" → node.zone ∈ c.values) ∧
        (c.key ≠ "region" → c.key ≠ "zone" →
          ∃ v, node.labels.lookup c.key = some v ∧ v ∈ c.values)) ∧
    (∀ n : EdgeNode, n.region ≠ "eu" →
      nodeMatchesConstraints n [⟨"region", "In", ["eu"]⟩] = false) := by
  constructor
  · unfold nodeMatchesConstraints
    rw [List.all_eq_true]
    constructor
    · intro h c hcmem
      have hx := h c hcmem
      by_cases hk1 : c.key = "region"
      · have hb1 : (c.key == "region") = true := by simp [hk1]
        simp only [hb1, if_true] at hx
        exact ⟨fun _ => (contains_iff _ _).mp hx,
          fun _ hne => absurd hk1 hne, fun hne _ => absurd hk1 hne⟩
      · by_cases hk2 : c.key = "zone"
        · have hb1 : (c.key == "region") = false := by simp [hk1]
          have hb2 : (c.key == "zone") = true := by simp [hk2]
          simp only [hb1, hb2, Bool.false_eq_true, if_false, if_true] at hx
          exact ⟨fun h1 => absurd h1 hk1, fun _ _ => (contains_iff _ _).mp hx,
            fun _ hne => absurd hk2 hne⟩
        · have hb1 : (c.key == "region") = false := by simp [hk1]
          have hb2 : (c.key == "zone") = false := by simp [hk2]
          simp only [hb1, hb2, Bool.false_eq_true, if_false] at hx
          refine ⟨fun h1 => absurd h1 hk1, fun h2 _ => absurd h2 hk2, fun _ _ => ?_⟩
          cases hl : node.labels.lookup c.key with
          | none => rw [hl] at hx; simp at hx
          | some v =>
            rw [hl] at hx
            exact ⟨v, rfl, (contains_iff _ _).mp hx⟩
    · intro h c hcmem
      obtain ⟨h1, h2, h3⟩ := h c hcmem
      by_cases hk1 : c.key = "region"
      · have hb1 : (c.key == "region") = true := by simp [hk1]
        simp only [hb1, if_true]
        exact (contains_iff _ _).mpr (h1 hk1)
      · by_cases hk2 : c.key = "zone"
        · have hb1 : (c.key == "region") = false := by simp [hk1]
          have hb2 : (c.key == "zone") = true := by simp [hk2]
          simp only [hb1, hb2, Bool.false_eq_true, if_false, if_true]
          exact (contains_iff _ _).mpr (h2 hk2 hk1)
        · have hb1 : (c.key == "region") = false := by simp [hk1]
          have hb2 : (c.key == "zone") = false := by simp [hk2]
          simp only [hb1, hb2, Bool.false_eq_true, if_false]
          obtain ⟨v, hv, hvmem⟩ := h3 hk1 hk2
          rw [hv]
          exact (contains_iff _ _).mpr hvmem
  · intro n hne
    have hne2 : ¬ ("eu" = n.region) := fun h => hne h.symm
    simp [nodeMatchesConstraints, contains, hne2]

/-- Witness for `constraint_matching_characterization`: a node in region
"us" is excluded by the ["eu"] region constraint. -/
theorem constraint_matching_characterization_witness :
    nodeMatchesConstraints
        ⟨"n1", NodeStatus.online, 0, 0, [], "us", "z"⟩
        [⟨"region", "In", ["eu"]⟩] = false := by
  exact (constraint_matching_characterization
      ⟨"n1", NodeStatus.online, 0, 0, [], "us", "z"⟩ []).2
      ⟨"n1", NodeStatus.online, 0, 0, [], "us", "z"⟩ (by decide)

/-- C10 failing input: a scheduling pass over a workload whose replica
count was scaled to −1, with one ONLINE matching node, aborts with an
out-of-bounds slice access (modelled as `none`) instead of completing
normally — the panic in `candidates[:maxNodes]` crashes the scheduler
goroutine and with it the process. -/
theorem negative_replicas_scheduling_panics :
    scheduleWorkloads 0
        [⟨"n1", NodeStatus.online, 0, 0, [], "default", "default"⟩]
        [{ id := "w1", name := "w", nspace := "default", type := "deployment",
           image := "img", replicas := -1, environment := [], labels := [],
           selector := [], placement := ⟨PlacementStrategyEdgeFirst, []⟩,
           status := WorkloadStatus.pending, deployments := [],
           createdAt := 0, updatedAt := 0 }] = none := by
  decide

/-- `WorkloadDeploymentRequest` from the shared Go declarations.
`binding:"required"` on name/type/image is modelled as the string being
non-empty (Go binding rejects the zero value); nil maps are `none`.  The
source field `Namespace` is spelled `nspace` as in `Workload`. -/
structure WorkloadDeploymentRequest where
  name : String
  nspace : String
  type : String
  image : String
  replicas : Int
  environment : Option (List (String × String))
  labels : Option (List (String × String))
  placement : PlacementPolicy
deriving Repr, DecidableEq

/-- `DeployWorkload` handler (workload handlers, lines 432-491): a
request missing a required field is rejected with no side effect;
otherwise a PENDING workload is stored under a freshly generated id with
defaults applied (namespace "default", one replica when unset, empty
maps, edge-first strategy when unset) and the selector derived from the
name and the new id. -/
def deployWorkload (now : Int) (newId : String)
    (workloads : String → Option Workload) (req : WorkloadDeploymentRequest) :
    Except String ((String → Option Workload) × String) :=
  if req.name == "" || req.type == "" || req.image == "" then
    Except.error "missing required field"
  else
    let w : Workload :=
      { id := newId,
        name := req.name,
        nspace := if req.nspace == "" then "default" else req.nspace,
        type := req.type,
        image := req.image,
        replicas := if req.replicas = 0 then 1 else req.replicas,
        environment := req.environment.getD [],
        labels := req.labels.getD [],
        selector := [("app", req.name), ("workload-id", newId)],
        placement :=
          { strategy :=
              if req.placement.strategy == "" then PlacementStrategyEdgeFirst
              else req.placement.strategy,
            constraints := req.placement.constraints },
        status := WorkloadStatus.pending,
        deployments := [],
        createdAt := now, updatedAt := now }
    Except.ok (fun k => if k == newId then some w else workloads k, newId)

/-- `ScaleWorkload` handler core (workload handlers, lines 547-576): an
unknown id fails with NotFound and changes nothing; otherwise the desired
replica count is overwritten, the status reset to PENDING regardless of
its prior value, and `updatedAt` refreshed. -/
def scaleWorkload (now : Int) (workloads : String → Option Workload)
    (id : String) (replicas : Int) :
    Except String (String → Option Workload) :=
  match workloads id with
  | none => Except.error "Workload not found"
  | some w =>
    Except.ok fun k =>
      if k == id then
        some { w with replicas := replicas, status := WorkloadStatus.pending,
                      updatedAt := now }
      else workloads k

/-- Token record stored by `generateToken` (`securityManager.js` lines
16-20). -/
structure TokenInfo where
  token : String
  expiresAt : Int
  createdAt : Int
deriving Repr, DecidableEq

/-- The 30-day token expiration window set by `generateToken`, in
milliseconds. -/
def tokenValidityMs : Int := 30 * 24 * 60 * 60 * 1000

/-- `generateToken` (`securityManager.js` lines 11-24): stores a fresh
secret for the node with `expiresAt = createdAt + 30 days`, overwriting
any prior entry for that node, and returns the secret.  The random
secret is taken as a parameter. -/
def generateToken (now : Int) (secret : String)
    (tokens : String → Option TokenInfo) (nodeId : String) :
    (String → Option TokenInfo) × String :=
  (fun k =>
    if k == nodeId then
      some { token := secret, expiresAt := now + tokenValidityMs, createdAt := now }
    else tokens k, secret)

/-- `validateToken` (`securityManager.js` lines 27-42): false when no
entry exists, the secret differs, or the current time is past the
stored expiry. -/
def validateToken (now : Int) (tokens : String → Option TokenInfo)
    (nodeId token : String) : Bool :=
  match tokens nodeId with
  | none => false
  | some info =>
    if info.token != token then false
    else if now > info.expiresAt then false
    else true

/-- `revokeToken` (`securityManager.js` lines 45-52): deletes the entry
if present. -/
def revokeToken (tokens : String → Option TokenInfo) (nodeId : String) :
    (String → Option TokenInfo) × Bool :=
  match tokens nodeId with
  | some _ => (fun k => if k == nodeId then none else tokens k, true)
  | none => (tokens, false)

/-- Validity-window content of the PEM certificate produced by
`GenerateCertificate`; parsing (`pem.Decode` plus certificate parsing)
recovers exactly these fields, the only ones `ValidateClientCertificate`
reads. -/
structure PemCertificate where
  notBefore : Int
  notAfter : Int
deriving Repr, DecidableEq

/-- `CertValidityPeriod` (`365 * 24 * time.Hour`) in milliseconds. -/
def certValidityPeriodMs : Int := 365 * 24 * 60 * 60 * 1000

/-- `Certificate` record from the shared Go declarations (key material
held abstract; the certificate bytes are represented by their parsed
validity window). -/
structure Certificate where
  id : String
  nodeId : String
  certificate : PemCertificate
  issuedAt : Int
  expiresAt : Int
deriving Repr, DecidableEq

/-- `GenerateCertificate` (security manager Go part, lines 171-247): the
certificate template is built with `NotBefore = now` and
`NotAfter = now + CertValidityPeriod`, and the stored record copies those
fields as `IssuedAt`/`ExpiresAt`. -/
def generateCertificate (now : Int) (certId nodeId : String) : Certificate :=
  let notBefore := now
  let notAfter := now + certValidityPeriodMs
  { id := certId, nodeId := nodeId,
    certificate := { notBefore := notBefore, notAfter := notAfter },
    issuedAt := notBefore, expiresAt := notAfter }

/-- `ValidateClientCertificate` (security manager Go part, lines
266-288): `none` models an unparseable PEM; otherwise only the validity
window is checked against the current time. -/
def validateClientCertificate (now : Int) (pem : Option PemCertificate) :
    Except String Unit :=
  match pem with
  | none => Except.error "failed to parse certificate PEM"
  | some cert =>
    if now < cert.notBefore ∨ now > cert.notAfter then
      Except.error "certificate is not valid at current time"
    else Except.ok ()

/-- C6: workload creation validates the required fields name, type and
image (rejecting with a validation error and no side effect when one is
missing), applies the defaults (namespace "default", one replica when
unset, empty label/environment maps, EDGE_FIRST strategy when unset),
stores the new workload PENDING under the fresh id, and derives the
selector as app = name, workload-id = the fresh id. -/
theorem deploy_workload_validates_and_defaults (now : Int) (newId : String)
    (workloads : String → Option Workload) (req : WorkloadDeploymentRequest) :
    ((req.name = "" ∨ req.type = "" ∨ req.image = "") →
      ∃ e, deployWorkload now newId workloads req = Except.error e) ∧
    (req.name ≠ "" → req.type ≠ "" → req.image ≠ "" →
      ∃ w st,
        deployWorkload now newId workloads req = Except.ok (st, newId) ∧
        st newId = some w ∧
        (∀ k, k ≠ newId → st k = workloads k) ∧
        w.status = WorkloadStatus.pending ∧
        w.selector = [("app", req.name), ("workload-id", newId)] ∧
        w.name = req.name ∧ w.type = req.type ∧ w.image = req.image ∧
        w.nspace = (if req.nspace = "" then "default" else req.nspace) ∧
        w.replicas = (if req.replicas = 0 then 1 else req.replicas) ∧
        w.labels = req.labels.getD [] ∧
        w.environment = req.environment.getD [] ∧
        w.placement.strategy =
          (if req.placement.strategy = "" then PlacementStrategyEdgeFirst
           else req.placement.strategy) ∧
        w.deployments = []) := by
  constructor
  · intro h
    have hb : (req.name == "" || req.type == "" || req.image == "") = true := by
      rcases h with h | h | h <;> simp [h]
    refine ⟨"missing required field", ?_⟩
    unfold deployWorkload
    rw [if_pos hb]
  · intro h1 h2 h3
    have hb : (req.name == "" || req.type == "" || req.image == "") = false := by
      simp [h1, h2, h3]
    unfold deployWorkload
    rw [if_neg (by simp [hb])]
    refine ⟨{ id := newId, name := req.name,
              nspace := if req.nspace == "" then "default" else req.nspace,
              type := req.type, image := req.image,
              replicas := if req.replicas = 0 then 1 else req.replicas,
              environment := req.environment.getD [],
              labels := req.labels.getD [],
              selector := [("app", req.name), ("workload-id", newId)],
              placement :=
                { strategy :=
                    if req.placement.strategy == "" then
                      PlacementStrategyEdgeFirst
                    else req.placement.strategy,
                  constraints := req.placement.constraints },
              status := WorkloadStatus.pending, deployments := [],
              createdAt := now, updatedAt := now },
      _, rfl, by simp, ?_, rfl, rfl, rfl, rfl, rfl, ?_, rfl, rfl, rfl, ?_, rfl⟩
    · intro k hk
      simp [hk]
    · by_cases hn : req.nspace = "" <;> simp [hn]
    · by_cases hs : req.placement.strategy = "" <;> simp [hs]

/-- Witness for `deploy_workload_validates_and_defaults`: a fully
defaulted request yields a PENDING workload with one replica, namespace
"default" and an edge-first strategy. -/
theorem deploy_workload_validates_and_defaults_witness :
    ∃ w st,
      deployWorkload 3 "id1" (fun _ => none)
          { name := "w", nspace := "", type := "deployment", image := "img",
            replicas := 0, environment := none, labels := none,
            placement := ⟨"", []⟩ } = Except.ok (st, "id1") ∧
      st "id1" = some w ∧
      w.status = WorkloadStatus.pending ∧
      w.replicas = 1 ∧ w.nspace = "default" ∧
      w.placement.strategy = PlacementStrategyEdgeFirst ∧
      w.selector = [("app", "w"), ("workload-id", "id1")] := by
  obtain ⟨w, st, he, hst, _, hstatus, hsel, _, _, _, hns, hrep, _, _, hstrat, _⟩ :=
    (deploy_workload_validates_and_defaults 3 "id1" (fun _ => none)
        { name := "w", nspace := "", type := "deployment", image := "img",
          replicas := 0, environment := none, labels := none,
          placement := ⟨"", []⟩ }).2
      (by decide) (by decide) (by decide)
  exact ⟨w, st, he, hst, hstatus, by simpa using hrep, by simpa using hns,
    by simpa using hstrat, by simpa using hsel⟩

/-- C7: scaling an existing workload overwrites the desired replica
count, resets the status to PENDING regardless of its prior value and
refreshes `updatedAt`, leaving every other workload untouched; scaling
an unknown id fails with NotFound and changes nothing. -/
theorem scale_workload_resets_pending (now : Int)
    (workloads : String → Option Workload) (id : String) (n : Int) :
    (workloads id = none →
      scaleWorkload now workloads id n = Except.error "Workload not found") ∧
    (∀ w, workloads id = some w →
      ∃ st, scaleWorkload now workloads id n = Except.ok st ∧
        st id = some { w with replicas := n, status := WorkloadStatus.pending,
                              updatedAt := now } ∧
        ∀ k, k ≠ id → st k = workloads k) := by
  constructor
  · intro h
    unfold scaleWorkload
    rw [h]
  · intro w h
    unfold scaleWorkload
    rw [h]
    refine ⟨_, rfl, by simp, ?_⟩
    intro k hk
    simp [hk]

/-- Witness for `scale_workload_resets_pending`: scaling a concrete
RUNNING workload to three replicas makes it PENDING with three
replicas. -/
theorem scale_workload_resets_pending_witness :
    ∃ st,
      scaleWorkload 9
          (fun k =>
            if k == "w1" then
              some { id := "w1", name := "w", nspace := "default",
                     type := "deployment", image := "img", replicas := 1,
                     environment := [], labels := [], selector := [],
                     placement := ⟨PlacementStrategyEdgeFirst, []⟩,
                     status := WorkloadStatus.running, deployments := [],
                     createdAt := 0, updatedAt := 0 }
            else none)
          "w1" 3 = Except.ok st ∧
      st "w1" = some { id := "w1", name := "w", nspace := "default",
                       type := "deployment", image := "img", replicas := 3,
                       environment := [], labels := [], selector := [],
                       placement := ⟨PlacementStrategyEdgeFirst, []⟩,
                       status := WorkloadStatus.pending, deployments := [],
                       createdAt := 0, updatedAt := 9 } := by
  obtain ⟨st, he, hst, _⟩ :=
    (scale_workload_resets_pending 9
        (fun k =>
          if k == "w1" then
            some { id := "w1", name := "w", nspace := "default",
                   type := "deployment", image := "img", replicas := 1,
                   environment := [], labels := [], selector := [],
                   placement := ⟨PlacementStrategyEdgeFirst, []⟩,
                   status := WorkloadStatus.running, deployments := [],
                   createdAt := 0, updatedAt := 0 }
          else none)
        "w1" 3).2
      { id := "w1", name := "w", nspace := "default",
        type := "deployment", image := "img", replicas := 1,
        environment := [], labels := [], selector := [],
        placement := ⟨PlacementStrategyEdgeFirst, []⟩,
        status := WorkloadStatus.running, deployments := [],
        createdAt := 0, updatedAt := 0 } (by decide)
  exact ⟨st, he, hst⟩

/-- C8: `validateToken` is true exactly when an entry exists for the
node, the stored secret equals the presented one, and the current time
is not past the stored expiry; issuance stores
`expiresAt = createdAt + 30 days` and overwrites any prior entry for the
node, so validating a previously issued (different) secret fails, and a
revoked token always fails validation. -/
theorem token_validation_characterization (now issuedAt : Int)
    (tokens : String → Option TokenInfo) (nodeId t secret : String) :
    (validateToken now tokens nodeId t = true ↔
      ∃ info, tokens nodeId = some info ∧ info.token = t ∧
        now ≤ info.expiresAt) ∧
    ((generateToken issuedAt secret tokens nodeId).1 nodeId =
      some { token := secret, expiresAt := issuedAt + tokenValidityMs,
             createdAt := issuedAt }) ∧
    (∀ old, old ≠ secret →
      validateToken now (generateToken issuedAt secret tokens nodeId).1
        nodeId old = false) ∧
    (validateToken now (revokeToken tokens nodeId).1 nodeId t = false) := by
  refine ⟨?_, by simp [generateToken], ?_, ?_⟩
  · cases h : tokens nodeId with
    | none => simp [validateToken, h]
    | some info =>
      simp only [validateToken, h, Option.some.injEq]
      split_ifs with h1 h2 <;> simp_all [bne_iff_ne]
  · intro old hold
    have hso : ¬ (secret = old) := fun h => hold h.symm
    simp [validateToken, generateToken, hso]
  · cases h : tokens nodeId with
    | none => simp [revokeToken, h, validateToken]
    | some info => simp [revokeToken, h, validateToken]

/-- Witness for `token_validation_characterization`: after issuing a
fresh secret "s" for node "n1", a previously issued secret "old" fails
validation. -/
theorem token_validation_characterization_witness :
    validateToken 5 (generateToken 0 "s" (fun _ => none) "n1").1
      "n1" "old" = false := by
  exact (token_validation_characterization 5 0 (fun _ => none)
      "n1" "old" "s").2.2.1 "old" (by decide)

/-- C9: every certificate produced by issuance has an encoded validity
window of exactly issuedAt to issuedAt plus 365 days (also recorded as
`expiresAt`), and validating its PEM succeeds precisely when the current
time lies inside that window. -/
theorem certificate_validity_window (now t : Int) (certId nodeId : String) :
    (generateCertificate now certId nodeId).certificate.notBefore =
      (generateCertificate now certId nodeId).issuedAt ∧
    (generateCertificate now certId nodeId).certificate.notAfter =
      (generateCertificate now certId nodeId).issuedAt + certValidityPeriodMs ∧
    (generateCertificate now certId nodeId).expiresAt =
      (generateCertificate now certId nodeId).issuedAt + certValidityPeriodMs ∧
    (generateCertificate now certId nodeId).issuedAt = now ∧
    (validateClientCertificate t
        (some (generateCertificate now certId nodeId).certificate) =
        Except.ok () ↔
      (generateCertificate now certId nodeId).issuedAt ≤ t ∧
        t ≤ (generateCertificate now certId nodeId).expiresAt) := by
  refine ⟨rfl, rfl, rfl, rfl, ?_⟩
  unfold validateClientCertificate generateCertificate
  simp only
  split_ifs with h
  · constructor
    · intro he
      exact absurd he (by simp)
    · intro hw
      omega
  · constructor
    · intro _
      constructor <;> omega
    · intro _
      rfl

end EdgeOrch
